import Mathlib

/-!
Verification of the session-orchestration core of the gemini-2-live-api-demo
repository, a shallow embedding of src/js/main/agent.js (class GeminiAgent).

Modelling conventions:
- Each method of the class becomes a function from the agent state to a
  Step record holding the post-state, the ordered trace of calls made to
  collaborator objects, and an optional thrown error. JavaScript mutates
  fields in place and may then throw, so a Step with err set still carries
  the mutations performed before the throw.
- Collaborators whose source files are not part of the repository snapshot
  (ws/client.js, audio/streamer.js, camera/camera.js, screen/screen.js,
  tools/tool-manager.js, transcribe/deepgram.js) are modelled at their
  interface boundary, following the natural-language specification; each
  such definition carries a doc comment saying so.
- Operations whose success depends on the external environment (device
  acquisition) take the outcome as an explicit parameter.
-/

namespace GeminiDemo

/- String constants used by the embedding (error messages and event names,
   matching the literals in agent.js). -/

def msgUrlRequired : String := "WebSocket URL is required"

def msgConfigRequired : String := "Config is required"

def msgNullToolManager : String := "TypeError: toolManager is null"

def msgNullStreamer : String := "TypeError: audioStreamer is null"

def msgNullClient : String := "TypeError: client is null"

def msgCamNotConnected : String := "Must be connected to start camera capture"

def msgScreenNotConnected : String := "Websocket must be connected to start screen sharing"

def msgCamFail : String := "Failed to start camera capture: "

def msgScreenFail : String := "Failed to start screen sharing: "

def msgDisconnectErr : String := "Disconnect error: TypeError: client is null"

def msgInitErr : String := "Error during the initialization of the client: TypeError: client is null"

def msgEmptyBatch : String := "TypeError: no function call in batch"

def evAudio : String := "audio"

def evInterrupted : String := "interrupted"

def evTurnComplete : String := "turn_complete"

def evToolCall : String := "tool_call"

def evScreenshareStopped : String := "screenshare_stopped"

def whichModel : String := "model"

def whichUser : String := "user"

def dotText : String := "."

/-- One function invocation requested by the remote side inside a toolCall
envelope: identifier, function name and serialized arguments. -/
structure FunctionCall where
  id : String
  name : String
  args : String
deriving Repr, DecidableEq

/-- The result of servicing one function call, keyed by the identifier of
the call it answers. -/
structure FunctionResponse where
  id : String
  output : String
deriving Repr, DecidableEq

/-- An inbound toolCall batch: one or more requested function calls. -/
structure ToolCallMsg where
  functionCalls : List FunctionCall
deriving Repr, DecidableEq

/-- Tool registry collaborator (tools/tool-manager.js is not in the
snapshot). It is observed by agent.js only through getToolDeclarations and
handleToolCall. -/
structure ToolManager where
  declarations : List String
deriving Repr, DecidableEq

def ToolManager.getToolDeclarations (tm : ToolManager) : List String :=
  tm.declarations

/-- Modelled from the spec: tools/tool-manager.js is not under src/. Per the
external-interface section, the collaborator maps one decoded function-call
descriptor to a result keyed by the identifier of that call. -/
def ToolManager.handleToolCall (_tm : ToolManager) (fc : FunctionCall) : FunctionResponse :=
  { id := fc.id, output := fc.name ++ fc.args }

/-- Wire envelopes sent through the protocol client, as observed at the
boundary between agent.js and ws/client.js. -/
inductive Envelope where
  | setup
  | clientContent (text : String)
  | realtimeAudio (chunk : List Nat)
  | realtimeImage (b64 : String)
  | toolResponse (resp : FunctionResponse)
deriving Repr, DecidableEq

/-- Protocol client state (ws/client.js is not in the snapshot). Modelled
from the spec: connect opens the transport and sends the setup envelope;
handler registration installs inbound event routing; send operations append
envelopes to the wire in order. -/
structure GeminiWebsocketClient where
  name : String
  isOpen : Bool
  handlers : List String
  sent : List Envelope
deriving Repr, DecidableEq

/-- Streaming audio sink state (audio/streamer.js is not in the snapshot).
Modelled from the spec: an isInitialized flag guarding priming, a queue of
scheduled not-yet-rendered chunks, and a generation counter that identifies
the current priming of the pipeline (bumped each time the pipeline is
re-primed, so entries of different generations never share a pipeline
state). -/
structure AudioStreamer where
  isInitialized : Bool
  scheduled : List (List Nat)
  generation : Nat
deriving Repr, DecidableEq

/-- Modelled from the spec: the sink initialize() method prepares (primes) a
fresh output pipeline and records that priming happened by setting the
isInitialized flag. -/
def AudioStreamer.primePipeline (a : AudioStreamer) : AudioStreamer :=
  { a with isInitialized := true, generation := a.generation + 1 }

/-- Modelled from the spec: stop() immediately silences output and discards
every not-yet-rendered scheduled entry, resetting the scheduling clock. The
caller (the orchestrator) is responsible for clearing the isInitialized
flag afterwards. -/
def AudioStreamer.stop (a : AudioStreamer) : AudioStreamer :=
  { a with scheduled := [] }

/-- Modelled from the spec: streamAudio(chunk) enqueues the chunk for
seamless playback after the already-scheduled entries. -/
def AudioStreamer.streamAudio (a : AudioStreamer) (chunk : List Nat) : AudioStreamer :=
  { a with scheduled := a.scheduled ++ [chunk] }

/-- Camera capturer state (camera/camera.js is not in the snapshot),
observed by agent.js through its constructor, its acquisition method,
capture and dispose. -/
structure CameraManager where
  width : Nat
  quality : String
  facingMode : String
  acquired : Bool
deriving Repr, DecidableEq

/-- Screen capturer state (screen/screen.js is not in the snapshot),
observed the same way plus the externally-triggered onStop notification. -/
structure ScreenManager where
  width : Nat
  quality : String
  acquired : Bool
deriving Repr, DecidableEq

/-- Deepgram transcriber collaborator state, at the boundary used by
agent.js (transcribe/deepgram.js is not in the snapshot). -/
structure DeepgramTranscriber where
  sampleRate : Nat
  isConnected : Bool
deriving Repr, DecidableEq

/-- The full field state of a constructed GeminiAgent, one Lean field per
JavaScript instance field of src/js/main/agent.js. Absent (null) fields are
Option none. nextTimer supplies fresh interval identifiers for setInterval
calls. -/
structure GeminiAgent where
  name : String
  url : String
  config_tools_declarations : List String
  initialized : Bool
  connected : Bool
  audioContext : Option Unit
  audioRecorder : Option Unit
  audioStreamer : Option AudioStreamer
  visualizer : Option Unit
  transcribeModelsSpeech : Bool
  transcribeUsersSpeech : Bool
  deepgramApiKey : Option String
  modelSampleRate : Nat
  fps : Nat
  captureInterval : Nat
  cameraManager : Option CameraManager
  cameraInterval : Option Nat
  screenManager : Option ScreenManager
  screenInterval : Option Nat
  modelTranscriber : Option DeepgramTranscriber
  userTranscriber : Option DeepgramTranscriber
  modelsKeepAliveInterval : Option Nat
  userKeepAliveInterval : Option Nat
  toolManager : Option ToolManager
  client : Option GeminiWebsocketClient
  nextTimer : Nat
deriving Repr, DecidableEq

/-- One observable call made by the orchestrator to a collaborator or to
the runtime (timers, event emission). -/
inductive Call where
  | streamerPrime
  | streamerStreamAudio (chunk : List Nat)
  | streamerStop
  | transcriberSendAudio (chunk : List Nat)
  | toolManagerInvoke (fc : FunctionCall)
  | clientConnect
  | clientSend (e : Envelope)
  | clientDisconnect
  | clientOn (event : String)
  | cameraAcquire
  | cameraDispose
  | screenAcquire
  | screenDispose
  | recorderStop
  | visualizerCleanup
  | transcriberDisconnect (which : String)
  | audioContextClose
  | setIntervalStart (id : Nat)
  | clearIntervalStop (id : Nat)
  | emitEvent (event : String)
deriving Repr, DecidableEq

/-- Result of running one method: post-state, ordered collaborator-call
trace, and the thrown error if the method threw. Mutations performed before
a throw are kept in the state, as in JavaScript. -/
structure Step where
  state : GeminiAgent
  trace : List Call
  err : Option String
deriving Repr, DecidableEq

/- Constructor arguments of the class, with the JavaScript default values;
Option none models a missing (undefined or null) argument. -/
structure AgentArgs where
  name : String := "GeminiAgent"
  url : Option String := none
  config : Option (List String) := none
  deepgramApiKey : Option String := none
  transcribeModelsSpeech : Bool := true
  transcribeUsersSpeech : Bool := false
  modelSampleRate : Nat := 24000
  toolManager : Option ToolManager := none
deriving Repr, DecidableEq

/-- Ambient localStorage values read during construction (fps, resizeWidth,
quality, facingMode), each absent by default. -/
structure LocalStore where
  fps : Option Nat := none
  resizeWidth : Option Nat := none
  quality : Option String := none
  facingMode : Option String := none
deriving Repr, DecidableEq

def defaultQuality : String := "0.4"

def defaultFacing : String := "environment"

/-- The GeminiAgent constructor. It validates url and config first, builds
the camera and screen managers from stored settings, and then
unconditionally dereferences toolManager to install its declarations into
the config; a null toolManager therefore throws a TypeError at this point,
before any connection is attempted. -/
def mkGeminiAgent (store : LocalStore) (a : AgentArgs) : Except String GeminiAgent :=
  match a.url with
  | none => .error msgUrlRequired
  | some url =>
    match a.config with
    | none => .error msgConfigRequired
    | some _cfg =>
      let fps := store.fps.getD 5
      let width := store.resizeWidth.getD 640
      let quality := store.quality.getD defaultQuality
      let facing := store.facingMode.getD defaultFacing
      match a.toolManager with
      | none => .error msgNullToolManager
      | some tm =>
        .ok {
          name := a.name
          url := url
          config_tools_declarations := tm.getToolDeclarations
          initialized := false
          connected := false
          audioContext := none
          audioRecorder := none
          audioStreamer := none
          visualizer := none
          transcribeModelsSpeech := a.transcribeModelsSpeech
          transcribeUsersSpeech := a.transcribeUsersSpeech
          deepgramApiKey := a.deepgramApiKey
          modelSampleRate := a.modelSampleRate
          fps := fps
          captureInterval := 1000 / fps
          cameraManager := some { width := width, quality := quality, facingMode := facing, acquired := false }
          cameraInterval := none
          screenManager := some { width := width, quality := quality, acquired := false }
          screenInterval := none
          modelTranscriber := none
          userTranscriber := none
          modelsKeepAliveInterval := none
          userKeepAliveInterval := none
          toolManager := some tm
          client := none
          nextTimer := 0 }

/-- setupEventListeners(): registers the four inbound event handlers
(audio, interrupted, turn_complete, tool_call) on the protocol client. A
null client makes the registration throw a TypeError. -/
def GeminiAgent.setupEventListeners (s : GeminiAgent) : Step :=
  match s.client with
  | none => { state := s, trace := [], err := some msgNullClient }
  | some c =>
    { state := { s with client := some { c with
        handlers := c.handlers ++ [evAudio, evInterrupted, evTurnComplete, evToolCall] } }
      trace := [Call.clientOn evAudio, Call.clientOn evInterrupted,
                Call.clientOn evTurnComplete, Call.clientOn evToolCall]
      err := none }

/-- Body of the audio event handler installed by setupEventListeners: if
the sink is not initialized it is primed first, then the chunk is streamed;
if a model transcriber is connected the chunk is also forwarded there. -/
def GeminiAgent.onAudioEvent (s : GeminiAgent) (data : List Nat) : Step :=
  match s.audioStreamer with
  | none => { state := s, trace := [], err := some msgNullStreamer }
  | some str =>
    let (str1, t1) :=
      if str.isInitialized then (str, ([] : List Call))
      else (str.primePipeline, [Call.streamerPrime])
    let str2 := str1.streamAudio data
    let t2 := t1 ++ [Call.streamerStreamAudio data]
    let t3 :=
      match s.modelTranscriber with
      | some tr => if tr.isConnected then [Call.transcriberSendAudio data] else []
      | none => []
    { state := { s with audioStreamer := some str2 }, trace := t2 ++ t3, err := none }

/-- Body of the interrupted event handler installed by setupEventListeners:
stops the sink, clears its isInitialized flag and re-emits the event. -/
def GeminiAgent.onInterruptedEvent (s : GeminiAgent) : Step :=
  match s.audioStreamer with
  | none => { state := s, trace := [], err := some msgNullStreamer }
  | some str =>
    { state := { s with audioStreamer := some { str.stop with isInitialized := false } }
      trace := [Call.streamerStop, Call.emitEvent evInterrupted]
      err := none }

/-- Body of the turn_complete event handler: logs and re-emits. -/
def GeminiAgent.onTurnCompleteEvent (s : GeminiAgent) : Step :=
  { state := s, trace := [Call.emitEvent evTurnComplete], err := none }

/-- handleToolCall(toolCall): services only the first function call of the
batch through the tool manager, then sends the result back as one
toolResponse envelope. -/
def GeminiAgent.handleToolCall (s : GeminiAgent) (tc : ToolCallMsg) : Step :=
  match tc.functionCalls.head? with
  | none => { state := s, trace := [], err := some msgEmptyBatch }
  | some fc =>
    match s.toolManager with
    | none => { state := s, trace := [], err := some msgNullToolManager }
    | some tm =>
      let resp := tm.handleToolCall fc
      match s.client with
      | none => { state := s, trace := [Call.toolManagerInvoke fc], err := some msgNullClient }
      | some c =>
        { state := { s with client := some { c with sent := c.sent ++ [Envelope.toolResponse resp] } }
          trace := [Call.toolManagerInvoke fc, Call.clientSend (Envelope.toolResponse resp)]
          err := none }

/-- connect(): constructs a fresh protocol client, awaits its connection
(modelled from the spec: connecting opens the transport and sends the setup
envelope), installs the event handlers, and only then sets connected. -/
def GeminiAgent.connect (s : GeminiAgent) : Step :=
  let c1 : GeminiWebsocketClient :=
    { name := s.name, isOpen := true, handlers := [], sent := [Envelope.setup] }
  let s1 := { s with client := some c1 }
  let r := s1.setupEventListeners
  match r.err with
  | some e => { state := r.state, trace := Call.clientConnect :: r.trace, err := some e }
  | none =>
    { state := { r.state with connected := true }
      trace := Call.clientConnect :: r.trace
      err := none }

/-- sendText(text): forwards the text to the protocol client (modelled from
the spec: a clientContent envelope goes on the wire) and emits text_sent. -/
def GeminiAgent.sendText (s : GeminiAgent) (text : String) : Step :=
  match s.client with
  | none => { state := s, trace := [], err := some msgNullClient }
  | some c =>
    { state := { s with client := some { c with sent := c.sent ++ [Envelope.clientContent text] } }
      trace := [Call.clientSend (Envelope.clientContent text)]
      err := none }

/-- stopCameraCapture(): clears the capture interval when present, then
disposes the camera manager when present. Never throws. -/
def GeminiAgent.stopCameraCapture (s : GeminiAgent) : GeminiAgent × List Call :=
  let (s1, t1) :=
    match s.cameraInterval with
    | some id => ({ s with cameraInterval := none }, [Call.clearIntervalStop id])
    | none => (s, [])
  match s1.cameraManager with
  | some cm =>
    ({ s1 with cameraManager := some { cm with acquired := false } }, t1 ++ [Call.cameraDispose])
  | none => (s1, t1)

/-- stopScreenShare(): clears the screen interval when present, then
disposes the screen manager when present. Never throws. -/
def GeminiAgent.stopScreenShare (s : GeminiAgent) : GeminiAgent × List Call :=
  let (s1, t1) :=
    match s.screenInterval with
    | some id => ({ s with screenInterval := none }, [Call.clearIntervalStop id])
    | none => (s, [])
  match s1.screenManager with
  | some sm =>
    ({ s1 with screenManager := some { sm with acquired := false } }, t1 ++ [Call.screenDispose])
  | none => (s1, t1)

/-- The audio-recorder block of disconnect(): stop and null it when it was
acquired. -/
def GeminiAgent.cleanupRecorder (s : GeminiAgent) : GeminiAgent × List Call :=
  match s.audioRecorder with
  | some _ => ({ s with audioRecorder := none }, [Call.recorderStop])
  | none => (s, [])

/-- The visualizer block of disconnect(). -/
def GeminiAgent.cleanupVisualizer (s : GeminiAgent) : GeminiAgent × List Call :=
  match s.visualizer with
  | some _ => ({ s with visualizer := none }, [Call.visualizerCleanup])
  | none => (s, [])

/-- The audio-streamer block of disconnect(): stop and null the sink when
present. -/
def GeminiAgent.cleanupStreamer (s : GeminiAgent) : GeminiAgent × List Call :=
  match s.audioStreamer with
  | some _ => ({ s with audioStreamer := none }, [Call.streamerStop])
  | none => (s, [])

/-- The model-transcriber block of disconnect(): disconnect and null the
transcriber, and clear its keep-alive timer, when present. -/
def GeminiAgent.cleanupModelTranscriber (s : GeminiAgent) : GeminiAgent × List Call :=
  match s.modelTranscriber with
  | some _ =>
    match s.modelsKeepAliveInterval with
    | some id =>
      ({ s with modelTranscriber := none, modelsKeepAliveInterval := none },
       [Call.transcriberDisconnect whichModel, Call.clearIntervalStop id])
    | none => ({ s with modelTranscriber := none }, [Call.transcriberDisconnect whichModel])
  | none => (s, [])

/-- The user-transcriber block of disconnect(). -/
def GeminiAgent.cleanupUserTranscriber (s : GeminiAgent) : GeminiAgent × List Call :=
  match s.userTranscriber with
  | some _ =>
    match s.userKeepAliveInterval with
    | some id =>
      ({ s with userTranscriber := none, userKeepAliveInterval := none },
       [Call.transcriberDisconnect whichUser, Call.clearIntervalStop id])
    | none => ({ s with userTranscriber := none }, [Call.transcriberDisconnect whichUser])
  | none => (s, [])

/-- The audio-context block of disconnect(): close and null it when
present. -/
def GeminiAgent.cleanupAudioContext (s : GeminiAgent) : GeminiAgent × List Call :=
  match s.audioContext with
  | some _ => ({ s with audioContext := none }, [Call.audioContextClose])
  | none => (s, [])

/-- disconnect(): stops both capturers, then tears down, behind per-field
null checks, the recorder, the visualizer, the sink, both transcribers with
their keep-alive timers, and the audio context, and finally closes the
protocol client and resets the lifecycle flags. The client teardown has no
null check: a null client throws a TypeError, which the surrounding catch
rethrows as a Disconnect error, after the earlier mutations took place. -/
def GeminiAgent.disconnect (s : GeminiAgent) : Step :=
  let r1 := s.stopCameraCapture
  let r2 := r1.1.stopScreenShare
  let r3 := r2.1.cleanupRecorder
  let r4 := r3.1.cleanupVisualizer
  let r5 := r4.1.cleanupStreamer
  let r6 := r5.1.cleanupModelTranscriber
  let r7 := r6.1.cleanupUserTranscriber
  let r8 := r7.1.cleanupAudioContext
  let tAll := r1.2 ++ r2.2 ++ r3.2 ++ r4.2 ++ r5.2 ++ r6.2 ++ r7.2 ++ r8.2
  match r8.1.client with
  | none => { state := r8.1, trace := tAll, err := some msgDisconnectErr }
  | some _ =>
    { state := { r8.1 with client := none, initialized := false, connected := false }
      trace := tAll ++ [Call.clientDisconnect]
      err := none }

/-- startCameraCapture(): requires connected, otherwise throws before doing
anything; acquires the camera (acquisition outcome supplied as a
parameter), then starts the fixed-interval capture timer; on acquisition
failure it awaits a full disconnect and rethrows a descriptive error (an
error thrown by that disconnect itself propagates instead). -/
def GeminiAgent.startCameraCapture (acq : Except String Unit) (s : GeminiAgent) : Step :=
  if s.connected = false then
    { state := s, trace := [], err := some msgCamNotConnected }
  else
    match acq with
    | .ok _ =>
      match s.cameraManager with
      | none => { state := s, trace := [], err := some msgNullClient }
      | some cm =>
        let s1 := { s with cameraManager := some { cm with acquired := true } }
        let id := s1.nextTimer
        { state := { s1 with cameraInterval := some id, nextTimer := id + 1 }
          trace := [Call.cameraAcquire, Call.setIntervalStart id]
          err := none }
    | .error e =>
      let d := s.disconnect
      match d.err with
      | some e2 => { state := d.state, trace := Call.cameraAcquire :: d.trace, err := some e2 }
      | none =>
        { state := d.state
          trace := Call.cameraAcquire :: d.trace
          err := some (msgCamFail ++ e) }

/-- startScreenShare(): requires connected, otherwise throws before doing
anything; acquires the screen source, then starts the fixed-interval
capture timer; on acquisition failure it awaits stopScreenShare and
rethrows a descriptive error. -/
def GeminiAgent.startScreenShare (acq : Except String Unit) (s : GeminiAgent) : Step :=
  if s.connected = false then
    { state := s, trace := [], err := some msgScreenNotConnected }
  else
    match acq with
    | .ok _ =>
      match s.screenManager with
      | none => { state := s, trace := [], err := some msgNullClient }
      | some sm =>
        let s1 := { s with screenManager := some { sm with acquired := true } }
        let id := s1.nextTimer
        { state := { s1 with screenInterval := some id, nextTimer := id + 1 }
          trace := [Call.screenAcquire, Call.setIntervalStart id]
          err := none }
    | .error e =>
      let (s1, t1) := s.stopScreenShare
      { state := s1
        trace := Call.screenAcquire :: t1
        err := some (msgScreenFail ++ e) }

/-- The onStop callback the constructor installs on the screen manager,
invoked when the screen source terminates externally: clears the capture
interval when present and emits screenshare_stopped. -/
def GeminiAgent.screenOnStop (s : GeminiAgent) : Step :=
  match s.screenInterval with
  | some id =>
    { state := { s with screenInterval := none }
      trace := [Call.clearIntervalStop id, Call.emitEvent evScreenshareStopped]
      err := none }
  | none =>
    { state := s, trace := [Call.emitEvent evScreenshareStopped], err := none }

/-- Whether the periodic screen-capture tick can fire: only while the
interval timer installed by startScreenShare is alive. -/
def GeminiAgent.screenTickEnabled (s : GeminiAgent) : Bool :=
  s.screenInterval.isSome

/-- Whether the periodic camera-capture tick can fire. -/
def GeminiAgent.cameraTickEnabled (s : GeminiAgent) : Bool :=
  s.cameraInterval.isSome

/-- initialize() of the class (named initAgent here): builds the audio
context, the sink (primed immediately), the visualizer and the recorder,
optionally sets up the Deepgram transcribers with their keep-alive timers,
sets the initialized flag, and then dereferences the protocol client to log
and to send the initial single-dot text turn. With a null client that
dereference throws after the flag was already set, so no text is sent. -/
def GeminiAgent.initAgent (s : GeminiAgent) : Step :=
  let s1 := { s with audioContext := some () }
  let str := (AudioStreamer.mk false [] 0).primePipeline
  let s2 := { s1 with audioStreamer := some str }
  let s3 := { s2 with visualizer := some () }
  let s4 := { s3 with audioRecorder := some () }
  let (s5, t5) :=
    match s4.deepgramApiKey with
    | some _ =>
      let (sa, ta) :=
        if s4.transcribeModelsSpeech then
          ({ s4 with
              modelTranscriber := some { sampleRate := s4.modelSampleRate, isConnected := true }
              modelsKeepAliveInterval := some s4.nextTimer
              nextTimer := s4.nextTimer + 1 },
           [Call.setIntervalStart s4.nextTimer])
        else (s4, [])
      if sa.transcribeUsersSpeech then
        ({ sa with
            userTranscriber := some { sampleRate := 16000, isConnected := true }
            userKeepAliveInterval := some sa.nextTimer
            nextTimer := sa.nextTimer + 1 },
         ta ++ [Call.setIntervalStart sa.nextTimer])
      else (sa, ta)
    | none => (s4, [])
  let s6 := { s5 with initialized := true }
  let t0 := [Call.streamerPrime] ++ t5
  match s6.client with
  | none => { state := s6, trace := t0, err := some msgInitErr }
  | some c =>
    { state := { s6 with client := some { c with sent := c.sent ++ [Envelope.clientContent dotText] } }
      trace := t0 ++ [Call.clientSend (Envelope.clientContent dotText)]
      err := none }

/-- Calls addressed to the streaming audio sink. -/
def Call.isStreamerCall : Call → Bool
  | .streamerPrime => true
  | .streamerStreamAudio _ => true
  | .streamerStop => true
  | _ => false

/-- Calls that invoke the tool-handling collaborator. -/
def Call.isToolInvoke : Call → Bool
  | .toolManagerInvoke _ => true
  | _ => false

/-- Calls that send an envelope through the protocol client. -/
def Call.isClientSend : Call → Bool
  | .clientSend _ => true
  | _ => false

/- Concrete fixtures used by the closed witness theorems. -/

def demoUrl : String := "wss://generativelanguage.example/ws"

def googleSearchDecl : String := "googleSearch"

def agentDefaultName : String := "GeminiAgent"

def abcId : String := "abc"

def demoFnName : String := "search"

def demoFnArgs : String := "query=hello"

def demoAcqErr : String := "PermissionDenied"

def demoTM : ToolManager := { declarations := [googleSearchDecl] }

def demoStore : LocalStore := {}

def demoArgs : AgentArgs :=
  { url := some demoUrl, config := some [], toolManager := some demoTM }

/-- Arguments with url and config supplied but the toolManager left at its
default (null). -/
def argsNoTM : AgentArgs := { url := some demoUrl, config := some [] }

/-- A throwaway inhabitant of the state type, only used as the fallback of
Option.getD below (never reached, as the adjacent theorems show). -/
def dummyAgent : GeminiAgent :=
  { name := agentDefaultName, url := demoUrl, config_tools_declarations := []
    initialized := false, connected := false, audioContext := none, audioRecorder := none
    audioStreamer := none, visualizer := none, transcribeModelsSpeech := true
    transcribeUsersSpeech := false, deepgramApiKey := none, modelSampleRate := 24000
    fps := 5, captureInterval := 200, cameraManager := none, cameraInterval := none
    screenManager := none, screenInterval := none, modelTranscriber := none
    userTranscriber := none, modelsKeepAliveInterval := none, userKeepAliveInterval := none
    toolManager := none, client := none, nextTimer := 0 }

/-- The agent state produced by running the constructor on the demo
arguments. -/
def freshAgent : GeminiAgent :=
  ((mkGeminiAgent demoStore demoArgs).toOption).getD dummyAgent

/-- The demo agent right after connect(). -/
def connectedAgent : GeminiAgent := (freshAgent.connect).state

/-- The demo agent after connect() and initialize(). -/
def readyAgent : GeminiAgent := (connectedAgent.initAgent).state

/-- The protocol-client state held by the demo agent after connect(). -/
def demoClient : GeminiWebsocketClient :=
  { name := agentDefaultName, isOpen := true
    handlers := [evAudio, evInterrupted, evTurnComplete, evToolCall]
    sent := [Envelope.setup] }

def demoFC : FunctionCall := { id := abcId, name := demoFnName, args := demoFnArgs }

def demoToolCall : ToolCallMsg := { functionCalls := [demoFC] }

def demoChunk : List Nat := [1, 2, 3, 255]

/- Frame lemmas: which agent fields each teardown block reads and writes.
These are the per-resource null-check blocks of disconnect(). -/

@[simp]
theorem stopCameraCapture_fields (s : GeminiAgent) :
    (s.stopCameraCapture).1.client = s.client ∧
    (s.stopCameraCapture).1.connected = s.connected ∧
    (s.stopCameraCapture).1.initialized = s.initialized ∧
    (s.stopCameraCapture).1.cameraInterval = none ∧
    (s.stopCameraCapture).1.screenInterval = s.screenInterval ∧
    (s.stopCameraCapture).1.cameraManager =
      s.cameraManager.map (fun cm => { cm with acquired := false }) ∧
    (s.stopCameraCapture).1.screenManager = s.screenManager := by
  cases hci : s.cameraInterval <;> cases hcm : s.cameraManager <;>
    simp [GeminiAgent.stopCameraCapture, hci, hcm]

@[simp]
theorem stopScreenShare_fields (s : GeminiAgent) :
    (s.stopScreenShare).1.client = s.client ∧
    (s.stopScreenShare).1.connected = s.connected ∧
    (s.stopScreenShare).1.initialized = s.initialized ∧
    (s.stopScreenShare).1.cameraInterval = s.cameraInterval ∧
    (s.stopScreenShare).1.screenInterval = none ∧
    (s.stopScreenShare).1.cameraManager = s.cameraManager ∧
    (s.stopScreenShare).1.screenManager =
      s.screenManager.map (fun sm => { sm with acquired := false }) := by
  cases hsi : s.screenInterval <;> cases hsm : s.screenManager <;>
    simp [GeminiAgent.stopScreenShare, hsi, hsm]

@[simp]
theorem cleanupRecorder_fields (s : GeminiAgent) :
    (s.cleanupRecorder).1.client = s.client ∧
    (s.cleanupRecorder).1.connected = s.connected ∧
    (s.cleanupRecorder).1.initialized = s.initialized ∧
    (s.cleanupRecorder).1.cameraInterval = s.cameraInterval ∧
    (s.cleanupRecorder).1.screenInterval = s.screenInterval ∧
    (s.cleanupRecorder).1.cameraManager = s.cameraManager ∧
    (s.cleanupRecorder).1.screenManager = s.screenManager := by
  cases h : s.audioRecorder <;> simp [GeminiAgent.cleanupRecorder, h]

@[simp]
theorem cleanupVisualizer_fields (s : GeminiAgent) :
    (s.cleanupVisualizer).1.client = s.client ∧
    (s.cleanupVisualizer).1.connected = s.connected ∧
    (s.cleanupVisualizer).1.initialized = s.initialized ∧
    (s.cleanupVisualizer).1.cameraInterval = s.cameraInterval ∧
    (s.cleanupVisualizer).1.screenInterval = s.screenInterval ∧
    (s.cleanupVisualizer).1.cameraManager = s.cameraManager ∧
    (s.cleanupVisualizer).1.screenManager = s.screenManager := by
  cases h : s.visualizer <;> simp [GeminiAgent.cleanupVisualizer, h]

@[simp]
theorem cleanupStreamer_fields (s : GeminiAgent) :
    (s.cleanupStreamer).1.client = s.client ∧
    (s.cleanupStreamer).1.connected = s.connected ∧
    (s.cleanupStreamer).1.initialized = s.initialized ∧
    (s.cleanupStreamer).1.cameraInterval = s.cameraInterval ∧
    (s.cleanupStreamer).1.screenInterval = s.screenInterval ∧
    (s.cleanupStreamer).1.cameraManager = s.cameraManager ∧
    (s.cleanupStreamer).1.screenManager = s.screenManager := by
  cases h : s.audioStreamer <;> simp [GeminiAgent.cleanupStreamer, h]

@[simp]
theorem cleanupModelTranscriber_fields (s : GeminiAgent) :
    (s.cleanupModelTranscriber).1.client = s.client ∧
    (s.cleanupModelTranscriber).1.connected = s.connected ∧
    (s.cleanupModelTranscriber).1.initialized = s.initialized ∧
    (s.cleanupModelTranscriber).1.cameraInterval = s.cameraInterval ∧
    (s.cleanupModelTranscriber).1.screenInterval = s.screenInterval ∧
    (s.cleanupModelTranscriber).1.cameraManager = s.cameraManager ∧
    (s.cleanupModelTranscriber).1.screenManager = s.screenManager := by
  cases h : s.modelTranscriber <;> cases hk : s.modelsKeepAliveInterval <;>
    simp [GeminiAgent.cleanupModelTranscriber, h, hk]

@[simp]
theorem cleanupUserTranscriber_fields (s : GeminiAgent) :
    (s.cleanupUserTranscriber).1.client = s.client ∧
    (s.cleanupUserTranscriber).1.connected = s.connected ∧
    (s.cleanupUserTranscriber).1.initialized = s.initialized ∧
    (s.cleanupUserTranscriber).1.cameraInterval = s.cameraInterval ∧
    (s.cleanupUserTranscriber).1.screenInterval = s.screenInterval ∧
    (s.cleanupUserTranscriber).1.cameraManager = s.cameraManager ∧
    (s.cleanupUserTranscriber).1.screenManager = s.screenManager := by
  cases h : s.userTranscriber <;> cases hk : s.userKeepAliveInterval <;>
    simp [GeminiAgent.cleanupUserTranscriber, h, hk]

@[simp]
theorem cleanupAudioContext_fields (s : GeminiAgent) :
    (s.cleanupAudioContext).1.client = s.client ∧
    (s.cleanupAudioContext).1.connected = s.connected ∧
    (s.cleanupAudioContext).1.initialized = s.initialized ∧
    (s.cleanupAudioContext).1.cameraInterval = s.cameraInterval ∧
    (s.cleanupAudioContext).1.screenInterval = s.screenInterval ∧
    (s.cleanupAudioContext).1.cameraManager = s.cameraManager ∧
    (s.cleanupAudioContext).1.screenManager = s.screenManager := by
  cases h : s.audioContext <;> simp [GeminiAgent.cleanupAudioContext, h]

/-- How disconnect() transforms the agent fields: both capture timers are
cleared and both capturers released unconditionally; with a live client the
call succeeds, drops the client and resets both lifecycle flags, while with
a null client it throws the wrapped TypeError. -/
theorem disconnect_fields (s : GeminiAgent) :
    (s.disconnect).state.cameraInterval = none ∧
    (s.disconnect).state.screenInterval = none ∧
    (s.disconnect).state.cameraManager =
      s.cameraManager.map (fun cm => { cm with acquired := false }) ∧
    (s.disconnect).state.screenManager =
      s.screenManager.map (fun sm => { sm with acquired := false }) ∧
    (s.client = none → (s.disconnect).err = some msgDisconnectErr) ∧
    (∀ c, s.client = some c →
      (s.disconnect).err = none ∧
      (s.disconnect).state.client = none ∧
      (s.disconnect).state.connected = false ∧
      (s.disconnect).state.initialized = false) := by
  cases hc : s.client <;> simp [GeminiAgent.disconnect, hc]

/-- C1: after the interrupted handler runs, the sink is stopped (its
scheduled queue discarded) and its isInitialized flag is false, so the next
audio chunk handled re-primes the pipeline (fresh generation) before
streaming: the chunk lands alone in a fresh queue, never in the
pre-interruption pipeline state. -/
theorem interrupted_resets_sink (s : GeminiAgent) (str : AudioStreamer)
    (h : s.audioStreamer = some str) :
    (s.onInterruptedEvent).state.audioStreamer =
      some { isInitialized := false, scheduled := [], generation := str.generation } ∧
    Call.streamerStop ∈ (s.onInterruptedEvent).trace ∧
    ∀ chunk : List Nat,
      ((s.onInterruptedEvent).state.onAudioEvent chunk).state.audioStreamer =
        some { isInitialized := true, scheduled := [chunk], generation := str.generation + 1 } ∧
      (((s.onInterruptedEvent).state.onAudioEvent chunk).trace).filter Call.isStreamerCall =
        [Call.streamerPrime, Call.streamerStreamAudio chunk] := by
  refine ⟨?_, ?_, ?_⟩
  · simp [GeminiAgent.onInterruptedEvent, h, AudioStreamer.stop]
  · simp [GeminiAgent.onInterruptedEvent, h]
  · intro chunk
    cases hm : s.modelTranscriber with
    | none =>
      simp [GeminiAgent.onInterruptedEvent, GeminiAgent.onAudioEvent, h, hm,
        AudioStreamer.stop, AudioStreamer.primePipeline, AudioStreamer.streamAudio,
        Call.isStreamerCall]
    | some tr =>
      cases htr : tr.isConnected <;>
        simp [GeminiAgent.onInterruptedEvent, GeminiAgent.onAudioEvent, h, hm, htr,
          AudioStreamer.stop, AudioStreamer.primePipeline, AudioStreamer.streamAudio,
          Call.isStreamerCall]

/-- Witness for C1: the initialized demo agent, interrupted and then handed
a concrete chunk, ends with a freshly primed queue holding only that
chunk. -/
theorem interrupted_resets_sink_witness :
    readyAgent.audioStreamer =
      some { isInitialized := true, scheduled := [], generation := 1 } ∧
    ((readyAgent.onInterruptedEvent).state.onAudioEvent demoChunk).state.audioStreamer =
      some { isInitialized := true, scheduled := [demoChunk], generation := 2 } := by
  refine ⟨by decide, ?_⟩
  exact ((interrupted_resets_sink readyAgent
    { isInitialized := true, scheduled := [], generation := 1 } (by decide)).2.2 demoChunk).1

/-- C2 (code bug): the spec requires disconnect() to be idempotent and
null-check every resource, but the client teardown has no null check, so
disconnect() on a never-connected agent, or a second disconnect() after a
successful one (which nulls the client), throws the wrapped TypeError
instead of completing. The first disconnect() after connect() does succeed
and resets both lifecycle flags. -/
theorem disconnect_second_call_throws :
    mkGeminiAgent demoStore demoArgs = .ok freshAgent ∧
    (freshAgent.connect).state = connectedAgent ∧
    (freshAgent.disconnect).err = some msgDisconnectErr ∧
    (connectedAgent.disconnect).err = none ∧
    (connectedAgent.disconnect).state.connected = false ∧
    (connectedAgent.disconnect).state.initialized = false ∧
    ((connectedAgent.disconnect).state.disconnect).err = some msgDisconnectErr := by
  exact ⟨rfl, rfl, by decide, by decide, by decide, by decide, by decide⟩

/-- C3: a toolCall batch with at least one function call makes the
orchestrator invoke the tool manager exactly once with exactly the first
call of the batch, and send exactly one toolResponse envelope carrying that
result, keyed by the identifier of the call. -/
theorem tool_call_single_response (s : GeminiAgent) (tm : ToolManager)
    (c : GeminiWebsocketClient) (tc : ToolCallMsg) (fc : FunctionCall)
    (htm : s.toolManager = some tm) (hc : s.client = some c)
    (hfc : tc.functionCalls.head? = some fc) :
    (s.handleToolCall tc).err = none ∧
    (s.handleToolCall tc).trace =
      [Call.toolManagerInvoke fc,
       Call.clientSend (Envelope.toolResponse (tm.handleToolCall fc))] ∧
    (s.handleToolCall tc).state.client =
      some { c with sent := c.sent ++ [Envelope.toolResponse (tm.handleToolCall fc)] } ∧
    (tm.handleToolCall fc).id = fc.id := by
  simp [GeminiAgent.handleToolCall, htm, hc, hfc, ToolManager.handleToolCall]

/-- Witness for C3: a one-call batch with id abc yields exactly one
toolResponse keyed to abc on the wire. -/
theorem tool_call_single_response_witness :
    demoToolCall.functionCalls.head? = some demoFC ∧
    (connectedAgent.handleToolCall demoToolCall).state.client =
      some { demoClient with
        sent := demoClient.sent ++ [Envelope.toolResponse (demoTM.handleToolCall demoFC)] } ∧
    (demoTM.handleToolCall demoFC).id = abcId := by
  have h := tool_call_single_response connectedAgent demoTM demoClient demoToolCall demoFC
    (by decide) (by decide) rfl
  exact ⟨rfl, h.2.2.1, h.2.2.2⟩

/-- C4: starting camera capture or screen sharing while not connected
rejects with the NotConnected error and performs no action at all: no
collaborator call is made, no device is acquired, and the state (its
interval fields included) is unchanged. -/
theorem capture_requires_connection (s : GeminiAgent)
    (acq1 acq2 : Except String Unit) (h : s.connected = false) :
    (GeminiAgent.startCameraCapture acq1 s).err = some msgCamNotConnected ∧
    (GeminiAgent.startCameraCapture acq1 s).state = s ∧
    (GeminiAgent.startCameraCapture acq1 s).trace = [] ∧
    (GeminiAgent.startScreenShare acq2 s).err = some msgScreenNotConnected ∧
    (GeminiAgent.startScreenShare acq2 s).state = s ∧
    (GeminiAgent.startScreenShare acq2 s).trace = [] := by
  simp [GeminiAgent.startCameraCapture, GeminiAgent.startScreenShare, h]

/-- Witness for C4: the freshly constructed demo agent rejects both start
calls and keeps its interval fields null. -/
theorem capture_requires_connection_witness :
    (GeminiAgent.startCameraCapture (.ok ()) freshAgent).err = some msgCamNotConnected ∧
    (GeminiAgent.startCameraCapture (.ok ()) freshAgent).state = freshAgent ∧
    (GeminiAgent.startScreenShare (.ok ()) freshAgent).err = some msgScreenNotConnected ∧
    (GeminiAgent.startScreenShare (.ok ()) freshAgent).state = freshAgent := by
  have h := capture_requires_connection freshAgent (.ok ()) (.ok ()) (by decide)
  exact ⟨h.1, h.2.1, h.2.2.2.1, h.2.2.2.2.1⟩

/-- C5: when capturer acquisition fails while connected, the camera path
rejects with a descriptive error after awaiting a full disconnect (leaving
no live timer, no acquired capturer, no client and connected false), and
the screen path rejects after awaiting stopScreenShare (leaving no live
screen timer and the screen capturer released). -/
theorem capture_init_failure_teardown (s : GeminiAgent) (c : GeminiWebsocketClient)
    (e : String) (hconn : s.connected = true) (hc : s.client = some c) :
    (GeminiAgent.startCameraCapture (.error e) s).err = some (msgCamFail ++ e) ∧
    (GeminiAgent.startCameraCapture (.error e) s).state = (s.disconnect).state ∧
    (GeminiAgent.startCameraCapture (.error e) s).state.connected = false ∧
    (GeminiAgent.startCameraCapture (.error e) s).state.cameraInterval = none ∧
    (GeminiAgent.startCameraCapture (.error e) s).state.screenInterval = none ∧
    (GeminiAgent.startCameraCapture (.error e) s).state.client = none ∧
    (GeminiAgent.startScreenShare (.error e) s).err = some (msgScreenFail ++ e) ∧
    (GeminiAgent.startScreenShare (.error e) s).state = (s.stopScreenShare).1 ∧
    (GeminiAgent.startScreenShare (.error e) s).state.screenInterval = none ∧
    (GeminiAgent.startScreenShare (.error e) s).state.screenManager =
      s.screenManager.map (fun sm => { sm with acquired := false }) := by
  have hD := disconnect_fields s
  have hsome := hD.2.2.2.2.2 c hc
  have hcam : GeminiAgent.startCameraCapture (.error e) s =
      { state := (s.disconnect).state
        trace := Call.cameraAcquire :: (s.disconnect).trace
        err := some (msgCamFail ++ e) } := by
    simp [GeminiAgent.startCameraCapture, hconn, hsome.1]
  have hscr : GeminiAgent.startScreenShare (.error e) s =
      { state := (s.stopScreenShare).1
        trace := Call.screenAcquire :: (s.stopScreenShare).2
        err := some (msgScreenFail ++ e) } := by
    simp [GeminiAgent.startScreenShare, hconn]
  refine ⟨by rw [hcam], by rw [hcam], ?_, ?_, ?_, ?_, by rw [hscr], by rw [hscr], ?_, ?_⟩
  · rw [hcam]; exact hsome.2.2.1
  · rw [hcam]; exact hD.1
  · rw [hcam]; exact hD.2.1
  · rw [hcam]; exact hsome.2.1
  · rw [hscr]; exact (stopScreenShare_fields s).2.2.2.2.1
  · rw [hscr]; exact (stopScreenShare_fields s).2.2.2.2.2.2

/-- Witness for C5: acquisition failure on the connected demo agent tears
down both paths as described. -/
theorem capture_init_failure_teardown_witness :
    (GeminiAgent.startCameraCapture (.error demoAcqErr) connectedAgent).err =
      some (msgCamFail ++ demoAcqErr) ∧
    (GeminiAgent.startCameraCapture (.error demoAcqErr) connectedAgent).state.connected = false ∧
    (GeminiAgent.startCameraCapture (.error demoAcqErr) connectedAgent).state.client = none ∧
    (GeminiAgent.startScreenShare (.error demoAcqErr) connectedAgent).err =
      some (msgScreenFail ++ demoAcqErr) ∧
    (GeminiAgent.startScreenShare (.error demoAcqErr) connectedAgent).state.screenInterval = none := by
  obtain ⟨h1, _, h3, _, _, h6, h7, _, h9, _⟩ :=
    capture_init_failure_teardown connectedAgent demoClient demoAcqErr (by decide) (by decide)
  exact ⟨h1, h3, h6, h7, h9⟩

/-- C6: the audio handler checks the isInitialized flag of the sink, primes
the sink exactly when the flag is false, and then forwards the chunk to
streamAudio exactly once and unmodified: the streamer-call trace is one
streamAudio of the very chunk, preceded by a prime exactly in the
uninitialized case, and the chunk is appended unchanged to the queue. -/
theorem audio_event_forwards_once (s : GeminiAgent) (str : AudioStreamer)
    (data : List Nat) (h : s.audioStreamer = some str) :
    (s.onAudioEvent data).err = none ∧
    (s.onAudioEvent data).state.audioStreamer =
      some { isInitialized := true
             scheduled := str.scheduled ++ [data]
             generation := if str.isInitialized then str.generation else str.generation + 1 } ∧
    ((s.onAudioEvent data).trace).filter Call.isStreamerCall =
      (if str.isInitialized then [Call.streamerStreamAudio data]
       else [Call.streamerPrime, Call.streamerStreamAudio data]) ∧
    ((Call.streamerPrime ∈ (s.onAudioEvent data).trace) ↔ str.isInitialized = false) := by
  cases hini : str.isInitialized with
  | false =>
    cases hm : s.modelTranscriber with
    | none =>
      simp [GeminiAgent.onAudioEvent, h, hm, hini, AudioStreamer.primePipeline,
        AudioStreamer.streamAudio, Call.isStreamerCall]
    | some tr =>
      cases htr : tr.isConnected <;>
        simp [GeminiAgent.onAudioEvent, h, hm, htr, hini, AudioStreamer.primePipeline,
          AudioStreamer.streamAudio, Call.isStreamerCall]
  | true =>
    cases hm : s.modelTranscriber with
    | none =>
      simp [GeminiAgent.onAudioEvent, h, hm, hini, AudioStreamer.primePipeline,
        AudioStreamer.streamAudio, Call.isStreamerCall]
    | some tr =>
      cases htr : tr.isConnected <;>
        simp [GeminiAgent.onAudioEvent, h, hm, htr, hini, AudioStreamer.primePipeline,
          AudioStreamer.streamAudio, Call.isStreamerCall]

/-- Witness for C6: one concrete chunk handed to the initialized demo agent
is streamed exactly once with no re-priming. -/
theorem audio_event_forwards_once_witness :
    readyAgent.audioStreamer =
      some { isInitialized := true, scheduled := [], generation := 1 } ∧
    ((readyAgent.onAudioEvent demoChunk).trace).filter Call.isStreamerCall =
      [Call.streamerStreamAudio demoChunk] := by
  have h := audio_event_forwards_once readyAgent
    { isInitialized := true, scheduled := [], generation := 1 } demoChunk (by decide)
  exact ⟨by decide, h.2.2.1⟩

/-- C7: the onStop callback installed on the screen manager at construction
cancels the screen capture interval, nulls the interval field, and emits
screenshare_stopped, with no caller action; afterwards the periodic screen
tick can no longer fire. -/
theorem screen_stop_callback (s : GeminiAgent) (id : Nat)
    (h : s.screenInterval = some id) :
    (s.screenOnStop).err = none ∧
    (s.screenOnStop).state = { s with screenInterval := none } ∧
    (s.screenOnStop).trace =
      [Call.clearIntervalStop id, Call.emitEvent evScreenshareStopped] ∧
    GeminiAgent.screenTickEnabled (s.screenOnStop).state = false := by
  simp [GeminiAgent.screenOnStop, h, GeminiAgent.screenTickEnabled]

/-- Witness for C7: the demo agent with screen sharing running, when the
source ends externally, cancels its timer and emits the event. -/
theorem screen_stop_callback_witness :
    ((connectedAgent.startScreenShare (.ok ())).state).screenInterval = some 0 ∧
    (((connectedAgent.startScreenShare (.ok ())).state).screenOnStop).trace =
      [Call.clearIntervalStop 0, Call.emitEvent evScreenshareStopped] ∧
    GeminiAgent.screenTickEnabled
      (((connectedAgent.startScreenShare (.ok ())).state).screenOnStop).state = false := by
  have h := screen_stop_callback ((connectedAgent.startScreenShare (.ok ())).state) 0 (by decide)
  exact ⟨by decide, h.2.2.1, h.2.2.2⟩

/-- C8: with a live client, initialize() prepares the playback sink (primed)
and the capture recorder, sets initialized, and sends exactly one text turn,
the single dot, through the client; called before connect() (null client) it
throws and sends no text turn at all, so it never completes with a sent
initial turn. -/
theorem initAgent_spec :
    (∀ (s : GeminiAgent) (c : GeminiWebsocketClient), s.client = some c →
      (s.initAgent).err = none ∧
      (s.initAgent).state.initialized = true ∧
      (s.initAgent).state.audioStreamer =
        some { isInitialized := true, scheduled := [], generation := 1 } ∧
      (s.initAgent).state.audioRecorder = some () ∧
      ((s.initAgent).trace).filter Call.isClientSend =
        [Call.clientSend (Envelope.clientContent dotText)] ∧
      (s.initAgent).state.client =
        some { c with sent := c.sent ++ [Envelope.clientContent dotText] }) ∧
    (∀ s : GeminiAgent, s.client = none →
      (s.initAgent).err = some msgInitErr ∧
      ((s.initAgent).trace).filter Call.isClientSend = []) := by
  constructor
  · intro s c hc
    cases hd : s.deepgramApiKey with
    | none =>
      simp [GeminiAgent.initAgent, hc, hd, AudioStreamer.primePipeline, Call.isClientSend]
    | some k =>
      cases hms : s.transcribeModelsSpeech <;> cases hus : s.transcribeUsersSpeech <;>
        simp [GeminiAgent.initAgent, hc, hd, hms, hus, AudioStreamer.primePipeline,
          Call.isClientSend]
  · intro s hc
    cases hd : s.deepgramApiKey with
    | none =>
      simp [GeminiAgent.initAgent, hc, hd, AudioStreamer.primePipeline, Call.isClientSend]
    | some k =>
      cases hms : s.transcribeModelsSpeech <;> cases hus : s.transcribeUsersSpeech <;>
        simp [GeminiAgent.initAgent, hc, hd, hms, hus, AudioStreamer.primePipeline,
          Call.isClientSend]

/-- Witness for C8: initialize() on the connected demo agent sends exactly
the dot turn, while on the never-connected agent it throws and sends
nothing. -/
theorem initAgent_spec_witness :
    ((connectedAgent.initAgent).trace).filter Call.isClientSend =
      [Call.clientSend (Envelope.clientContent dotText)] ∧
    (connectedAgent.initAgent).state.initialized = true ∧
    (freshAgent.initAgent).err = some msgInitErr ∧
    ((freshAgent.initAgent).trace).filter Call.isClientSend = [] := by
  have ha := initAgent_spec.1 connectedAgent demoClient (by decide)
  have hb := initAgent_spec.2 freshAgent (by decide)
  exact ⟨ha.2.2.2.2.1, ha.2.1, hb.1, hb.2⟩

/-- C9: construction with a missing url or a missing config fails with the
corresponding error, producing no agent value at all (so no connection can
be attempted); and the state left by a successful connect() has connected
true together with an open client transport on which all four inbound
handlers are installed. -/
theorem construct_validation_and_connect :
    (∀ (store : LocalStore) (a : AgentArgs), a.url = none →
      mkGeminiAgent store a = .error msgUrlRequired) ∧
    (∀ (store : LocalStore) (a : AgentArgs) (u : String),
      a.url = some u → a.config = none →
      mkGeminiAgent store a = .error msgConfigRequired) ∧
    (∀ s : GeminiAgent,
      (s.connect).err = none ∧
      (s.connect).state.connected = true ∧
      ∃ c, (s.connect).state.client = some c ∧ c.isOpen = true ∧
        evAudio ∈ c.handlers ∧ evInterrupted ∈ c.handlers ∧
        evTurnComplete ∈ c.handlers ∧ evToolCall ∈ c.handlers) := by
  refine ⟨?_, ?_, ?_⟩
  · intro store a h
    simp [mkGeminiAgent, h]
  · intro store a u hu hcfg
    simp [mkGeminiAgent, hu, hcfg]
  · intro s
    refine ⟨?_, ?_, ?_⟩
    · simp [GeminiAgent.connect, GeminiAgent.setupEventListeners]
    · simp [GeminiAgent.connect, GeminiAgent.setupEventListeners]
    · refine ⟨{ name := s.name, isOpen := true
                handlers := [evAudio, evInterrupted, evTurnComplete, evToolCall]
                sent := [Envelope.setup] }, ?_, rfl, ?_, ?_, ?_, ?_⟩
      · simp [GeminiAgent.connect, GeminiAgent.setupEventListeners]
      all_goals simp

/-- Witness for C9: missing-url and missing-config argument records are
rejected with the exact errors, and the connected demo agent has the open
transport with all four handlers installed. -/
theorem construct_validation_and_connect_witness :
    mkGeminiAgent demoStore { url := none } = .error msgUrlRequired ∧
    mkGeminiAgent demoStore { url := some demoUrl } = .error msgConfigRequired ∧
    (freshAgent.connect).state.connected = true := by
  refine ⟨construct_validation_and_connect.1 demoStore { url := none } rfl,
    construct_validation_and_connect.2.1 demoStore { url := some demoUrl } demoUrl rfl rfl,
    (construct_validation_and_connect.2.2 freshAgent).2.1⟩

/-- C10: with the toolManager argument left at its default null, the
constructor always throws: either one of the url and config validation
errors fires first, or the unconditional dereference of the null tool
manager raises a TypeError; no agent value is ever produced. -/
theorem toolManager_required (store : LocalStore) (a : AgentArgs)
    (h : a.toolManager = none) :
    mkGeminiAgent store a = .error msgUrlRequired ∨
    mkGeminiAgent store a = .error msgConfigRequired ∨
    mkGeminiAgent store a = .error msgNullToolManager := by
  cases hu : a.url with
  | none => exact Or.inl (by simp [mkGeminiAgent, hu])
  | some u =>
    cases hcfg : a.config with
    | none => exact Or.inr (Or.inl (by simp [mkGeminiAgent, hu, hcfg]))
    | some cfg => exact Or.inr (Or.inr (by simp [mkGeminiAgent, hu, hcfg, h]))

/-- Witness for C10: with url and config supplied but no tool manager, the
constructor throws the TypeError. -/
theorem toolManager_required_witness :
    mkGeminiAgent demoStore argsNoTM = .error msgUrlRequired ∨
    mkGeminiAgent demoStore argsNoTM = .error msgConfigRequired ∨
    mkGeminiAgent demoStore argsNoTM = .error msgNullToolManager :=
  toolManager_required demoStore argsNoTM rfl

end GeminiDemo
